import Mathlib

/-!
Shallow embedding of `solidspy/gaussutil.py` (numeric integration
routines: Gauss-Legendre quadrature tables and rule builders).

Modelling conventions: Python float literals are modelled as the exact
rational values of the decimal literals appearing in the source; numpy
arrays become lists; a function that can `raise ValueError(msg)` returns
`Except String`; `itertools.product(l, repeat=n)` becomes `productRepeat l n`.
-/

namespace Gaussutil

/-- `gauss_1d(npts)`: 1-D Gauss-Legendre points and weights for a point
count in 2..10, returned as `(pts, wts)`; any other point count raises
`ValueError("The number of points should be in [2, 10]")`. -/
def gauss_1d (npts : ℕ) : Except String (List ℚ × List ℚ) :=
  if npts = 2 then
    .ok ([-0.577350269189625764, 0.577350269189625764],
         [1.00000000000000000, 1.00000000000000000])
  else if npts = 3 then
    .ok ([-0.774596669241483377, 0, 0.774596669241483377],
         [0.555555555555555556, 0.888888888888888889,
          0.555555555555555556])
  else if npts = 4 then
    .ok ([-0.861136311594052575, -0.339981043584856265,
          0.339981043584856265, 0.861136311594052575],
         [0.347854845137453857, 0.652145154862546143,
          0.652145154862546143, 0.347854845137453857])
  else if npts = 5 then
    .ok ([-0.906179845938663993, -0.538469310105683091, 0,
          0.538469310105683091, 0.906179845938663993],
         [0.236926885056189088, 0.478628670499366468,
          0.568888888888888889, 0.478628670499366468,
          0.236926885056189088])
  else if npts = 6 then
    .ok ([-0.932469514203152028, -0.661209386466264514,
          -0.238619186083196909, 0.238619186083196909,
          0.661209386466264514, 0.932469514203152028],
         [0.171324492379170345, 0.360761573048138608,
          0.467913934572691047, 0.467913934572691047,
          0.360761573048138608, 0.171324492379170345])
  else if npts = 7 then
    .ok ([-0.949107912342758525, -0.741531185599394440,
          -0.405845151377397167, 0, 0.405845151377397167,
          0.741531185599394440, 0.949107912342758525],
         [0.129484966168869693, 0.279705391489276668,
          0.381830050505118945, 0.417959183673469388,
          0.381830050505118945, 0.279705391489276668,
          0.129484966168869693])
  else if npts = 8 then
    .ok ([-0.960289856497536232, -0.796666477413626740,
          -0.525532409916328986, -0.183434642495649805,
          0.183434642495649805, 0.525532409916328986,
          0.796666477413626740, 0.960289856497536232],
         [0.101228536290376259, 0.222381034453374471,
          0.313706645877887287, 0.362683783378361983,
          0.362683783378361983, 0.313706645877887287,
          0.222381034453374471, 0.101228536290376259])
  else if npts = 9 then
    .ok ([-0.968160239507626090, -0.836031107326635794,
          -0.613371432700590397, -0.324253423403808929, 0,
          0.324253423403808929, 0.613371432700590397,
          0.836031107326635794, 0.968160239507626090],
         [0.0812743883615744120, 0.180648160694857404,
          0.260610696402935462, 0.312347077040002840,
          0.330239355001259763, 0.312347077040002840,
          0.260610696402935462, 0.180648160694857404,
          0.0812743883615744120])
  else if npts = 10 then
    .ok ([-0.973906528517171720, -0.865063366688984511,
          -0.679409568299024406, -0.433395394129247191,
          -0.148874338981631211, 0.148874338981631211,
          0.433395394129247191, 0.679409568299024406,
          0.865063366688984511, 0.973906528517171720],
         [0.0666713443086881376, 0.149451349150580593,
          0.219086362515982044, 0.269266719309996355,
          0.295524224714752870, 0.295524224714752870,
          0.269266719309996355, 0.219086362515982044,
          0.149451349150580593, 0.0666713443086881376])
  else
    .error "The number of points should be in [2, 10]"

/-- `itertools.product(l, repeat=n)` as a list of `n`-element lists, in the
generator's lexicographic order (the first axis varies slowest, the last
axis fastest). -/
def productRepeat {α : Type} (l : List α) : ℕ → List (List α)
  | 0 => [[]]
  | n + 1 => l.flatMap (fun x => (productRepeat l n).map (fun t => x :: t))

/-- `gauss_nd(npts, ndim=2)`: points and weights for Gauss quadrature on an
N-D hypercube: the Cartesian power of the 1-D point set, and the component
products of the Cartesian power of the 1-D weights.  An error raised by
`gauss_1d` propagates unchanged (the builder performs no validation of its
own, in particular none on `ndim`). -/
def gauss_nd (npts : ℕ) (ndim : ℕ := 2) : Except String (List (List ℚ) × List ℚ) :=
  match gauss_1d npts with
  | .error e => .error e
  | .ok (pts, wts) =>
      .ok (productRepeat pts ndim, (productRepeat wts ndim).map List.prod)

/-- `gauss_tri(order=2)`: Gauss points and weights for a triangle up to
order 7, returned as `(pts, wts)`; any other order raises
`ValueError("The order should be in [1, 7]")`. -/
def gauss_tri (order : ℕ := 2) : Except String (List (List ℚ) × List ℚ) :=
  if order = 1 then
    .ok ([[0.3333333333333, 0.3333333333333]], [1.0])
  else if order = 2 then
    .ok ([[0.1666666666667, 0.1666666666667],
          [0.6666666666667, 0.1666666666667],
          [0.1666666666667, 0.6666666666667]],
         List.replicate 3 0.333333333333)
  else if order = 3 ∨ order = 4 ∨ order = 5 then
    .ok ([[0.1012865073235, 0.1012865073235],
          [0.7974269853531, 0.1012865073235],
          [0.1012865073235, 0.7974269853531],
          [0.4701420641051, 0.0597158717898],
          [0.4701420641051, 0.4701420641051],
          [0.0597158717898, 0.4701420641051],
          [0.3333333333333, 0.3333333333333]],
         [0.1259391805448, 0.1259391805448, 0.1259391805448,
          0.1323941527885, 0.1323941527885, 0.1323941527885,
          0.225])
  else if order = 6 ∨ order = 7 then
    .ok ([[0.0651301029022, 0.0651301029022],
          [0.8697397941956, 0.0651301029022],
          [0.0651301029022, 0.8697397941956],
          [0.3128654960049, 0.0486903154253],
          [0.6384441885698, 0.3128654960049],
          [0.0486903154253, 0.6384441885698],
          [0.6384441885698, 0.0486903154253],
          [0.3128654960049, 0.6384441885698],
          [0.0486903154253, 0.3128654960049],
          [0.2603459660790, 0.2603459660790],
          [0.4793080678413, 0.2603459660790],
          [0.2603459660790, 0.4793080678413],
          [0.3333333333333, 0.3333333333333]],
         [0.0533472356088, 0.0533472356088, 0.0533472356088,
          0.0771137608903, 0.0771137608903, 0.0771137608903,
          0.0771137608903, 0.0771137608903, 0.0771137608903,
          0.1756152574332, 0.1756152574332, 0.1756152574332,
          -0.1495700444677])
  else
    .error "The order should be in [1, 7]"

/-- `gpoints2x2()`: legacy Gauss points for a 2 by 2 grid, returned as
`(wts, pts)` with all four weights 1 and the point coordinates tabulated
with the rounded constant `0.577350269189626`. -/
def gpoints2x2 : List ℚ × List (List ℚ) :=
  ([1, 1, 1, 1],
   [[-0.577350269189626, 0.577350269189626],
    [0.577350269189626, 0.577350269189626],
    [-0.577350269189626, -0.577350269189626],
    [0.577350269189626, -0.577350269189626]])

/-- `gpoints7()`: legacy 7-point triangle rule, returned as `(wts, pts)`. -/
def gpoints7 : List ℚ × List (List ℚ) :=
  ([0.1259391805448, 0.1259391805448, 0.1259391805448,
    0.1323941527885, 0.1323941527885, 0.1323941527885,
    0.225],
   [[0.1012865073235, 0.1012865073235],
    [0.7974269853531, 0.1012865073235],
    [0.1012865073235, 0.7974269853531],
    [0.4701420641051, 0.0597158717898],
    [0.4701420641051, 0.4701420641051],
    [0.0597158717898, 0.4701420641051],
    [0.3333333333333, 0.3333333333333]])

/-- `gpoints3()`: legacy 3-point triangle rule, returned as `(wts, pts)`. -/
def gpoints3 : List ℚ × List (List ℚ) :=
  (List.replicate 3 0.333333333333,
   [[0.1666666666667, 0.1666666666667],
    [0.6666666666667, 0.1666666666667],
    [0.1666666666667, 0.6666666666667]])

/-! ### Generic facts about the Cartesian-power generator -/

theorem productRepeat_length {α : Type} (l : List α) (n : ℕ) :
    (productRepeat l n).length = l.length ^ n := by
  induction n with
  | zero => simp [productRepeat]
  | succ n ih =>
      simp [productRepeat, List.length_flatMap, ih, pow_succ, Nat.mul_comm,
        Function.comp_def]

theorem productRepeat_mem {α : Type} {l : List α} {n : ℕ} {t : List α}
    (ht : t ∈ productRepeat l n) : t.length = n ∧ ∀ x ∈ t, x ∈ l := by
  induction n generalizing t with
  | zero =>
      simp [productRepeat] at ht
      simp [ht]
  | succ n ih =>
      simp only [productRepeat, List.mem_flatMap, List.mem_map] at ht
      obtain ⟨x, hx, t', ht', rfl⟩ := ht
      obtain ⟨hlen, hmem⟩ := ih ht'
      refine ⟨by simp [hlen], ?_⟩
      intro y hy
      rcases List.mem_cons.mp hy with rfl | hy
      · exact hx
      · exact hmem y hy

theorem productRepeat_map {α β : Type} (f : α → β) (l : List α) (n : ℕ) :
    productRepeat (l.map f) n = (productRepeat l n).map (List.map f) := by
  induction n with
  | zero => simp [productRepeat]
  | succ n ih =>
      simp [productRepeat, ih, List.flatMap_map, List.map_flatMap,
        List.map_map, Function.comp_def]

/-- For every tabulated point count the 1-D catalog succeeds and returns as
many points as weights, namely the requested count. -/
theorem gauss_1d_tabulated (n : ℕ) (h2 : 2 ≤ n) (h10 : n ≤ 10) :
    ∃ pts wts : List ℚ, gauss_1d n = .ok (pts, wts) ∧ pts.length = n ∧ wts.length = n := by
  interval_cases n <;> exact ⟨_, _, rfl, rfl, rfl⟩

/-! ### Claim theorems -/

/-- C2 (functional_correctness): for every point count in 2..10 and every
dimension d at least 1, `gauss_nd` returns the full Cartesian power of the
1-D point set (exactly n ^ d tuples, each a d-tuple of 1-D abscissas) and,
in the same generator order, the weights obtained by multiplying the
components of the Cartesian power of the 1-D weights; the two Cartesian
powers are the first and second projections of the single Cartesian power
of the zipped (point, weight) table, so points and weights follow the same
lexicographic product order over the dimension axes. -/
theorem gauss_nd_cartesian_product (n d : ℕ) (h2 : 2 ≤ n) (h10 : n ≤ 10)
    (_hd : 1 ≤ d) :
    ∃ pts wts : List ℚ,
      gauss_1d n = .ok (pts, wts) ∧
      pts.length = n ∧ wts.length = n ∧
      gauss_nd n d = .ok (productRepeat pts d, (productRepeat wts d).map List.prod) ∧
      (productRepeat pts d).length = n ^ d ∧
      ((productRepeat wts d).map List.prod).length = n ^ d ∧
      (∀ p ∈ productRepeat pts d, p.length = d ∧ ∀ c ∈ p, c ∈ pts) ∧
      (∀ i : ℕ, ((productRepeat wts d).map List.prod)[i]? =
        ((productRepeat wts d)[i]?).map List.prod) ∧
      productRepeat pts d = (productRepeat (pts.zip wts) d).map (List.map Prod.fst) ∧
      (productRepeat wts d).map List.prod =
        (productRepeat (pts.zip wts) d).map (fun t => (t.map Prod.snd).prod) := by
  obtain ⟨pts, wts, hok, hp, hw⟩ := gauss_1d_tabulated n h2 h10
  have hlen : pts.length = wts.length := by rw [hp, hw]
  refine ⟨pts, wts, hok, hp, hw, ?_, ?_, ?_, ?_, ?_, ?_, ?_⟩
  · unfold gauss_nd; rw [hok]
  · rw [productRepeat_length, hp]
  · rw [List.length_map, productRepeat_length, hw]
  · exact fun p hmem => productRepeat_mem hmem
  · intro i; exact List.getElem?_map ..
  · calc productRepeat pts d
        = productRepeat ((pts.zip wts).map Prod.fst) d := by
          rw [List.map_fst_zip pts wts (le_of_eq (by rw [hp, hw]))]
      _ = (productRepeat (pts.zip wts) d).map (List.map Prod.fst) :=
          productRepeat_map ..
  · calc (productRepeat wts d).map List.prod
        = (productRepeat ((pts.zip wts).map Prod.snd) d).map List.prod := by
          rw [List.map_snd_zip pts wts (le_of_eq (by rw [hp, hw]))]
      _ = ((productRepeat (pts.zip wts) d).map (List.map Prod.snd)).map List.prod := by
          rw [productRepeat_map]
      _ = (productRepeat (pts.zip wts) d).map (fun t => (t.map Prod.snd).prod) := by
          rw [List.map_map]; rfl

/-- Witness for C2 at point count 2, dimension 2. -/
theorem gauss_nd_cartesian_product_witness :
    ((2 : ℕ) ≤ 2 ∧ (2 : ℕ) ≤ 10 ∧ (1 : ℕ) ≤ 2) ∧
    ∃ pts wts : List ℚ,
      gauss_1d 2 = .ok (pts, wts) ∧
      pts.length = 2 ∧ wts.length = 2 ∧
      gauss_nd 2 2 = .ok (productRepeat pts 2, (productRepeat wts 2).map List.prod) ∧
      (productRepeat pts 2).length = 2 ^ 2 ∧
      ((productRepeat wts 2).map List.prod).length = 2 ^ 2 ∧
      (∀ p ∈ productRepeat pts 2, p.length = 2 ∧ ∀ c ∈ p, c ∈ pts) ∧
      (∀ i : ℕ, ((productRepeat wts 2).map List.prod)[i]? =
        ((productRepeat wts 2)[i]?).map List.prod) ∧
      productRepeat pts 2 = (productRepeat (pts.zip wts) 2).map (List.map Prod.fst) ∧
      (productRepeat wts 2).map List.prod =
        (productRepeat (pts.zip wts) 2).map (fun t => (t.map Prod.snd).prod) :=
  ⟨⟨by decide, by decide, by decide⟩,
   gauss_nd_cartesian_product 2 2 (by decide) (by decide) (by decide)⟩

/-- C7 (invariants): every tabulated 1-D rule has exactly n points and n
weights, the weights sum to 2 within 1e-12, the point list is strictly
increasing and is its own reversed negation (so sorted points satisfy
points[i] = -points[n-1-i]), every abscissa lies strictly inside (-1, 1),
and for odd n exactly one point equals 0. -/
theorem gauss_1d_table_invariants (n : ℕ) (h2 : 2 ≤ n) (h10 : n ≤ 10) :
    ∃ pts wts : List ℚ,
      gauss_1d n = .ok (pts, wts) ∧
      pts.length = n ∧ wts.length = n ∧
      |wts.sum - 2| ≤ 1e-12 ∧
      List.Pairwise (fun a b : ℚ => a < b) pts ∧
      pts.reverse.map (fun x => -x) = pts ∧
      (∀ x ∈ pts, -1 < x ∧ x < 1) ∧
      (n % 2 = 1 → pts.countP (fun x => decide (x = 0)) = 1) := by
  interval_cases n <;>
    refine ⟨_, _, rfl, rfl, rfl,
      by rw [abs_le]; constructor <;> norm_num [List.sum_cons],
      by norm_num [List.pairwise_cons],
      by norm_num,
      by intro x hx; fin_cases hx <;> constructor <;> norm_num, ?_⟩ <;>
    first
      | exact fun h => absurd h (by decide)
      | (intro _; norm_num [List.countP_cons])

/-- Witness for C7 at point count 3. -/
theorem gauss_1d_table_invariants_witness :
    ((2 : ℕ) ≤ 3 ∧ (3 : ℕ) ≤ 10) ∧
    ∃ pts wts : List ℚ,
      gauss_1d 3 = .ok (pts, wts) ∧
      pts.length = 3 ∧ wts.length = 3 ∧
      |wts.sum - 2| ≤ 1e-12 ∧
      List.Pairwise (fun a b : ℚ => a < b) pts ∧
      pts.reverse.map (fun x => -x) = pts ∧
      (∀ x ∈ pts, -1 < x ∧ x < 1) ∧
      (3 % 2 = 1 → pts.countP (fun x => decide (x = 0)) = 1) :=
  ⟨⟨by decide, by decide⟩, gauss_1d_table_invariants 3 (by decide) (by decide)⟩

/-- C9 (functional_correctness): for every valid point count, `gauss_nd`
with zero dimensions does not fail: it returns exactly one point, the
empty coordinate tuple, with the single weight 1 (the empty product). -/
theorem gauss_nd_dim0_empty_tuple_rule (n : ℕ) (h2 : 2 ≤ n) (h10 : n ≤ 10) :
    gauss_nd n 0 = .ok ([[]], [1]) := by
  interval_cases n <;> rfl

/-- Witness for C9 at point count 2. -/
theorem gauss_nd_dim0_empty_tuple_rule_witness :
    ((2 : ℕ) ≤ 2 ∧ (2 : ℕ) ≤ 10) ∧ gauss_nd 2 0 = .ok ([[]], [1]) :=
  ⟨⟨by decide, by decide⟩, gauss_nd_dim0_empty_tuple_rule 2 (by decide) (by decide)⟩

/-- C10 (functional_correctness): the optional parameters have fixed
defaults: `gauss_nd` without a dimensions argument equals `gauss_nd npts 2`
for every npts, and `gauss_tri` with no argument equals `gauss_tri 2`. -/
theorem default_arguments (n : ℕ) :
    gauss_nd n = gauss_nd n 2 ∧
    (gauss_tri : Except String (List (List ℚ) × List ℚ)) = gauss_tri 2 :=
  ⟨rfl, rfl⟩

/-- C1 counterexample: `gauss_nd 4 0` does not raise any error: it returns
a Rule (one empty tuple with weight 1), because the code contains no
dimension validation at all. -/
theorem gauss_nd_dim0_returns_rule :
    gauss_nd 4 0 = .ok ([[]], [1]) ∧ ∀ e, gauss_nd 4 0 ≠ .error e := by
  refine ⟨rfl, fun e h => ?_⟩
  rw [show gauss_nd 4 0 = Except.ok ([([] : List ℚ)], [(1 : ℚ)]) from rfl] at h
  exact Except.noConfusion h

/-- C1 amended: for every valid point count in 2..10, calling `gauss_nd`
with dimensions = 0 does not fail with any error; it returns the Rule
consisting of exactly one empty coordinate tuple paired with the single
weight 1 (the empty product), there being no dimension validation. -/
theorem gauss_nd_dim0_no_error (n : ℕ) (h2 : 2 ≤ n) (h10 : n ≤ 10) :
    (∀ e, gauss_nd n 0 ≠ .error e) ∧ gauss_nd n 0 = .ok ([[]], [1]) := by
  have hok : gauss_nd n 0 = .ok ([[]], [1]) := by interval_cases n <;> rfl
  exact ⟨fun e h => Except.noConfusion (hok.symm.trans h), hok⟩

/-- Witness for the amended C1 at point count 4 (the boundary input named
by the spec, hypercube_rule(4, 0)). -/
theorem gauss_nd_dim0_no_error_witness :
    ((2 : ℕ) ≤ 4 ∧ (4 : ℕ) ≤ 10) ∧
    (∀ e, gauss_nd 4 0 ≠ .error e) ∧ gauss_nd 4 0 = .ok ([[]], [1]) :=
  ⟨⟨by decide, by decide⟩, gauss_nd_dim0_no_error 4 (by decide) (by decide)⟩

/-- C4 (functional_correctness): for every order in 1..7, `gauss_tri`
returns as many points as weights: 1 point for order 1, 3 for order 2, 7
for orders 3..5 (all three orders return the very same rule), and 13 for
orders 6 and 7 (both return the very same rule, whose weight list has
exactly one strictly negative entry). -/
theorem gauss_tri_rule_families (o : ℕ) (h1 : 1 ≤ o) (h7 : o ≤ 7) :
    ∃ pts wts, gauss_tri o = .ok (pts, wts) ∧
      pts.length = wts.length ∧
      (o = 1 → pts.length = 1) ∧
      (o = 2 → pts.length = 3) ∧
      (3 ≤ o → o ≤ 5 → pts.length = 7 ∧ gauss_tri o = gauss_tri 3) ∧
      (6 ≤ o → pts.length = 13 ∧ gauss_tri o = gauss_tri 6 ∧
        wts.countP (fun w => decide (w < 0)) = 1) := by
  interval_cases o
  · exact ⟨_, _, rfl, rfl, fun _ => rfl, fun h => absurd h (by decide),
      fun h _ => absurd h (by decide), fun h => absurd h (by decide)⟩
  · exact ⟨_, _, rfl, rfl, fun h => absurd h (by decide), fun _ => rfl,
      fun h _ => absurd h (by decide), fun h => absurd h (by decide)⟩
  · exact ⟨_, _, rfl, rfl, fun h => absurd h (by decide),
      fun h => absurd h (by decide), fun _ _ => ⟨rfl, rfl⟩,
      fun h => absurd h (by decide)⟩
  · exact ⟨_, _, rfl, rfl, fun h => absurd h (by decide),
      fun h => absurd h (by decide), fun _ _ => ⟨rfl, rfl⟩,
      fun h => absurd h (by decide)⟩
  · exact ⟨_, _, rfl, rfl, fun h => absurd h (by decide),
      fun h => absurd h (by decide), fun _ _ => ⟨rfl, rfl⟩,
      fun h => absurd h (by decide)⟩
  · exact ⟨_, _, rfl, rfl, fun h => absurd h (by decide),
      fun h => absurd h (by decide), fun _ h => absurd h (by decide),
      fun _ => ⟨rfl, rfl, by norm_num [List.countP_cons]⟩⟩
  · exact ⟨_, _, rfl, rfl, fun h => absurd h (by decide),
      fun h => absurd h (by decide), fun _ h => absurd h (by decide),
      fun _ => ⟨rfl, rfl, by norm_num [List.countP_cons]⟩⟩

/-- Witness for C4 at order 6. -/
theorem gauss_tri_rule_families_witness :
    ((1 : ℕ) ≤ 6 ∧ (6 : ℕ) ≤ 7) ∧
    ∃ pts wts, gauss_tri 6 = .ok (pts, wts) ∧
      pts.length = wts.length ∧
      ((6 : ℕ) = 1 → pts.length = 1) ∧
      ((6 : ℕ) = 2 → pts.length = 3) ∧
      ((3 : ℕ) ≤ 6 → (6 : ℕ) ≤ 5 → pts.length = 7 ∧ gauss_tri 6 = gauss_tri 3) ∧
      ((6 : ℕ) ≤ 6 → pts.length = 13 ∧ gauss_tri 6 = gauss_tri 6 ∧
        wts.countP (fun w => decide (w < 0)) = 1) :=
  ⟨⟨by decide, by decide⟩, gauss_tri_rule_families 6 (by decide) (by decide)⟩

/-- C5 (error_handling): `gauss_1d` returns the error whose message names
the valid range, namely "The number of points should be in [2, 10]",
exactly when the point count is not one of the tabulated integers 2..10
(so 1 and 11 both fail); it raises no other error message; and `gauss_nd`
surfaces any such error unchanged for every dimension count. -/
theorem gauss_1d_unsupported_precision (n : ℕ) :
    ((gauss_1d n = .error "The number of points should be in [2, 10]") ↔
      ¬(2 ≤ n ∧ n ≤ 10)) ∧
    (∀ e, gauss_1d n = .error e → e = "The number of points should be in [2, 10]") ∧
    (∀ d e, gauss_1d n = .error e → gauss_nd n d = .error e) := by
  have key : ∀ m : ℕ, ¬(2 ≤ m ∧ m ≤ 10) →
      gauss_1d m = .error "The number of points should be in [2, 10]" := by
    intro m hm
    unfold gauss_1d
    repeat rw [if_neg (by omega)]
  have key2 : ∀ m : ℕ, 2 ≤ m → m ≤ 10 → ∀ e, gauss_1d m ≠ .error e := by
    intro m hm2 hm10 e h
    obtain ⟨pts, wts, hok, -, -⟩ := gauss_1d_tabulated m hm2 hm10
    rw [hok] at h
    exact Except.noConfusion h
  refine ⟨⟨fun h hv => key2 n hv.1 hv.2 _ h, fun hv => key n hv⟩,
    fun e h => ?_, fun d e h => ?_⟩
  · by_cases hv : 2 ≤ n ∧ n ≤ 10
    · exact absurd h (key2 n hv.1 hv.2 e)
    · have h2 := (key n hv).symm.trans h
      injection h2 with h3
      exact h3.symm
  · unfold gauss_nd
    rw [h]

/-- Witness for C5 at the boundary point counts 1 and 11, with the error
surfacing through `gauss_nd 11 2`. -/
theorem gauss_1d_unsupported_precision_witness :
    gauss_1d 1 = Except.error "The number of points should be in [2, 10]" ∧
    gauss_1d 11 = Except.error "The number of points should be in [2, 10]" ∧
    gauss_nd 11 2 = Except.error "The number of points should be in [2, 10]" :=
  ⟨(gauss_1d_unsupported_precision 1).1.mpr (by decide),
   (gauss_1d_unsupported_precision 11).1.mpr (by decide),
   (gauss_1d_unsupported_precision 11).2.2 2 _ (by rfl)⟩

/-- C6 (error_handling): `gauss_tri` returns the error whose message names
the valid range, namely "The order should be in [1, 7]", exactly when the
order is not one of the integers 1..7 (so 0 and 8 both fail); every raised
error carries that message; and on the failing branch no rule value is
produced at all. -/
theorem gauss_tri_unsupported_order (o : ℕ) :
    ((gauss_tri o = .error "The order should be in [1, 7]") ↔
      ¬(1 ≤ o ∧ o ≤ 7)) ∧
    (∀ e, gauss_tri o = .error e → e = "The order should be in [1, 7]") ∧
    (∀ e r, gauss_tri o = .error e → gauss_tri o ≠ .ok r) := by
  have key : ∀ m : ℕ, ¬(1 ≤ m ∧ m ≤ 7) →
      gauss_tri m = .error "The order should be in [1, 7]" := by
    intro m hm
    unfold gauss_tri
    repeat rw [if_neg (by omega)]
  have key2 : ∀ m : ℕ, 1 ≤ m → m ≤ 7 → ∀ e, gauss_tri m ≠ .error e := by
    intro m hm1 hm7 e h
    interval_cases m <;> simp [gauss_tri] at h
  refine ⟨⟨fun h hv => key2 o hv.1 hv.2 _ h, fun hv => key o hv⟩,
    fun e h => ?_, fun e r h hok => ?_⟩
  · by_cases hv : 1 ≤ o ∧ o ≤ 7
    · exact absurd h (key2 o hv.1 hv.2 e)
    · have h2 := (key o hv).symm.trans h
      injection h2 with h3
      exact h3.symm
  · rw [h] at hok
    exact Except.noConfusion hok

/-- Witness for C6 at the boundary orders 0 and 8. -/
theorem gauss_tri_unsupported_order_witness :
    gauss_tri 0 = Except.error "The order should be in [1, 7]" ∧
    gauss_tri 8 = Except.error "The order should be in [1, 7]" :=
  ⟨(gauss_tri_unsupported_order 0).1.mpr (by decide),
   (gauss_tri_unsupported_order 8).1.mpr (by decide)⟩

/-- C3 counterexample: `gauss_nd 2 2` yields the four sign combinations of
0.577350269189625764 with weight 1 each, but the multiset of its
(point, weight) pairs is NOT equal to that of `gpoints2x2`, because the
legacy table stores the constant rounded to 0.577350269189626: no
permutation relates the two pair lists. -/
theorem gauss_nd_2_2_gpoints2x2_multiset_ne :
    gauss_nd 2 2 = Except.ok
      ([[-0.577350269189625764, -0.577350269189625764],
        [-0.577350269189625764, 0.577350269189625764],
        [0.577350269189625764, -0.577350269189625764],
        [0.577350269189625764, 0.577350269189625764]],
       [1, 1, 1, 1]) ∧
    ¬ (List.zip
        [[-0.577350269189625764, -0.577350269189625764],
         [-0.577350269189625764, 0.577350269189625764],
         [0.577350269189625764, -0.577350269189625764],
         [0.577350269189625764, 0.577350269189625764]]
        ([1, 1, 1, 1] : List ℚ)).Perm
      (gpoints2x2.2.zip gpoints2x2.1) := by
  constructor
  · have h : gauss_nd 2 2 = Except.ok
        ([[-0.577350269189625764, -0.577350269189625764],
          [-0.577350269189625764, 0.577350269189625764],
          [0.577350269189625764, -0.577350269189625764],
          [0.577350269189625764, 0.577350269189625764]],
         ([[1.00000000000000000, 1.00000000000000000],
           [1.00000000000000000, 1.00000000000000000],
           [1.00000000000000000, 1.00000000000000000],
           [1.00000000000000000, 1.00000000000000000]] : List (List ℚ)).map
            List.prod) := rfl
    rw [h]
    norm_num
  · intro hperm
    have hmem : ([-0.577350269189626, 0.577350269189626], (1 : ℚ)) ∈
        gpoints2x2.2.zip gpoints2x2.1 := by
      rw [show gpoints2x2.2.zip gpoints2x2.1 =
          [([-0.577350269189626, 0.577350269189626], (1 : ℚ)),
           ([0.577350269189626, 0.577350269189626], 1),
           ([-0.577350269189626, -0.577350269189626], 1),
           ([0.577350269189626, -0.577350269189626], 1)] from rfl]
      exact List.mem_cons_self _ _
    have h2 := hperm.mem_iff.mpr hmem
    norm_num [List.mem_cons, Prod.mk.injEq, List.cons.injEq] at h2

/-- C3 amended: `gauss_nd 2 2` yields exactly the four sign combinations of
0.577350269189625764, each with weight 1; `gpoints2x2` returns the same
four weights and a reordering of the four sign combinations of the rounded
constant 0.577350269189626, so the two multisets of (point, weight) pairs
agree componentwise within 1e-15 but are not exactly equal. -/
theorem gauss_nd_2_2_gpoints2x2_approx :
    gauss_nd 2 2 = Except.ok
      ([[-0.577350269189625764, -0.577350269189625764],
        [-0.577350269189625764, 0.577350269189625764],
        [0.577350269189625764, -0.577350269189625764],
        [0.577350269189625764, 0.577350269189625764]],
       [1, 1, 1, 1]) ∧
    gpoints2x2 = ([1, 1, 1, 1],
      [[-0.577350269189626, 0.577350269189626],
       [0.577350269189626, 0.577350269189626],
       [-0.577350269189626, -0.577350269189626],
       [0.577350269189626, -0.577350269189626]]) ∧
    List.Forall₂ (List.Forall₂ (fun c t : ℚ => |c - t| ≤ 1e-15))
      [[-0.577350269189625764, -0.577350269189625764],
       [-0.577350269189625764, 0.577350269189625764],
       [0.577350269189625764, -0.577350269189625764],
       [0.577350269189625764, 0.577350269189625764]]
      [[-0.577350269189626, -0.577350269189626],
       [-0.577350269189626, 0.577350269189626],
       [0.577350269189626, -0.577350269189626],
       [0.577350269189626, 0.577350269189626]] ∧
    List.Perm
      [[-0.577350269189626, -0.577350269189626],
       [-0.577350269189626, 0.577350269189626],
       [0.577350269189626, -0.577350269189626],
       [0.577350269189626, 0.577350269189626]]
      gpoints2x2.2 := by
  refine ⟨?_, rfl, ?_, ?_⟩
  · have h : gauss_nd 2 2 = Except.ok
        ([[-0.577350269189625764, -0.577350269189625764],
          [-0.577350269189625764, 0.577350269189625764],
          [0.577350269189625764, -0.577350269189625764],
          [0.577350269189625764, 0.577350269189625764]],
         ([[1.00000000000000000, 1.00000000000000000],
           [1.00000000000000000, 1.00000000000000000],
           [1.00000000000000000, 1.00000000000000000],
           [1.00000000000000000, 1.00000000000000000]] : List (List ℚ)).map
            List.prod) := rfl
    rw [h]
    norm_num
  · norm_num [List.forall₂_cons, abs_le]
  · rw [show gpoints2x2.2 =
        [[-0.577350269189626, 0.577350269189626],
         [0.577350269189626, 0.577350269189626],
         [-0.577350269189626, -0.577350269189626],
         [0.577350269189626, -0.577350269189626]] from rfl]
    exact (List.Perm.swap _ _ _).trans
      (List.Perm.cons _ ((List.Perm.cons _ (List.Perm.swap _ _ [])).trans
        (List.Perm.swap _ _ _)))

/-- C8 counterexample: `gpoints3` does not return the exact weights
[1/3, 1/3, 1/3] nor the exact points [[1/6, 1/6], [2/3, 1/6], [1/6, 2/3]];
it tabulates the rounded decimals 0.333333333333, 0.1666666666667 and
0.6666666666667. -/
theorem gpoints3_exact_values_ne :
    gpoints3.1 ≠ ([1/3, 1/3, 1/3] : List ℚ) ∧
    gpoints3.2 ≠ ([[1/6, 1/6], [2/3, 1/6], [1/6, 2/3]] : List (List ℚ)) := by
  constructor
  · intro h
    rw [show gpoints3.1 =
        [(0.333333333333 : ℚ), 0.333333333333, 0.333333333333] from rfl] at h
    norm_num at h
  · intro h
    rw [show gpoints3.2 =
        [[(0.1666666666667 : ℚ), 0.1666666666667],
         [0.6666666666667, 0.1666666666667],
         [0.1666666666667, 0.6666666666667]] from rfl] at h
    norm_num at h

/-- C8 amended: `gpoints3` returns the pair (weights, points), inverted
relative to the (points, weights) pair of `gauss_tri 2` and otherwise
identical to it; its three weights are the literal 0.333333333333 (each
within 1e-12 of 1/3) and its points are the literal decimal roundings of
[[1/6, 1/6], [2/3, 1/6], [1/6, 2/3]] (each coordinate within 1e-12), in
that exact order. -/
theorem gpoints3_inverted_of_gauss_tri_two :
    gauss_tri 2 = Except.ok (gpoints3.2, gpoints3.1) ∧
    gpoints3.1 = [0.333333333333, 0.333333333333, 0.333333333333] ∧
    gpoints3.2 = [[0.1666666666667, 0.1666666666667],
                  [0.6666666666667, 0.1666666666667],
                  [0.1666666666667, 0.6666666666667]] ∧
    List.Forall₂ (fun w t : ℚ => |w - t| ≤ 1e-12) gpoints3.1 [1/3, 1/3, 1/3] ∧
    List.Forall₂ (List.Forall₂ (fun c t : ℚ => |c - t| ≤ 1e-12)) gpoints3.2
      [[1/6, 1/6], [2/3, 1/6], [1/6, 2/3]] := by
  refine ⟨rfl, rfl, rfl, ?_, ?_⟩
  · rw [show gpoints3.1 =
        [(0.333333333333 : ℚ), 0.333333333333, 0.333333333333] from rfl]
    norm_num [List.forall₂_cons, abs_le]
  · rw [show gpoints3.2 =
        [[(0.1666666666667 : ℚ), 0.1666666666667],
         [0.6666666666667, 0.1666666666667],
         [0.1666666666667, 0.6666666666667]] from rfl]
    norm_num [List.forall₂_cons, abs_le]

end Gaussutil
